import Mathlib

/-!
Shallow embedding of the coffee-shop backend (src/main.py): a
single-product checkout flow with a MyFatoorah payment-gateway client
and a payment callback handler, over a document store holding the
order and order_callbacks collections.
-/

/-- JSON-like values, as produced by parsing a request or response body
and as held in Python dict payloads. Numbers are modelled as integers;
no claim involves fractional JSON numbers. -/
inductive JVal where
  | null
  | bool (b : Bool)
  | num (n : Int)
  | str (s : String)
  | arr (xs : List JVal)
  | obj (fs : List (String × JVal))
deriving Repr

/-- Whether a JSON value is Python None (the "is None" identity
check). -/
def JVal.isNull : JVal → Bool
  | .null => true
  | _ => false

/-- Python truthiness of a JSON value: None, False, 0, empty string,
empty list and empty dict are falsy, everything else is truthy. -/
def pyTruthy : JVal → Bool
  | .null => false
  | .bool b => b
  | .num n => n != 0
  | .str s => s != ""
  | .arr xs => !xs.isEmpty
  | .obj fs => !fs.isEmpty

mutual

/-- Python repr() of a JSON value (repr of a string wraps it in single
quotes, written here with hex escapes). -/
def pyRepr : JVal → String
  | .null => "None"
  | .bool true => "True"
  | .bool false => "False"
  | .num n => toString n
  | .str s => "\x27" ++ s ++ "\x27"
  | .arr xs => "[" ++ pyReprArr xs ++ "]"
  | .obj fs => "\x7b" ++ pyReprObj fs ++ "\x7d"

/-- repr of the elements of a Python list, comma separated. -/
def pyReprArr : List JVal → String
  | [] => ""
  | [v] => pyRepr v
  | v :: vs => pyRepr v ++ ", " ++ pyReprArr vs

/-- repr of the entries of a Python dict, comma separated. -/
def pyReprObj : List (String × JVal) → String
  | [] => ""
  | [(k, v)] => pyRepr (JVal.str k) ++ ": " ++ pyRepr v
  | (k, v) :: fs => pyRepr (JVal.str k) ++ ": " ++ pyRepr v ++ ", " ++ pyReprObj fs

end

/-- Python str() of a JSON value: scalars are rendered directly (same
text as repr except that a top-level string loses its quotes);
containers fall back to repr. -/
def pyStr : JVal → String
  | .null => "None"
  | .bool true => "True"
  | .bool false => "False"
  | .num n => toString n
  | .str s => s
  | v => pyRepr v

/-- Python str.lower(), restricted to the ASCII letters that gateway
status strings use. -/
def pyLower (s : String) : String :=
  String.mk (s.data.map Char.toLower)

/-- Python v.get(k) on a dict: the value when the key is present, None
when absent; raises AttributeError when v is not a dict. Exception
message text approximates CPython; no claim depends on its wording. -/
def pyGet : JVal → String → Except String JVal
  | .obj fs, k => .ok ((fs.lookup k).getD .null)
  | _, k => .error ("AttributeError: object has no attribute get (key " ++ k ++ ")")

/-- Python v.get(k, d) on a dict, with a default for an absent key;
raises AttributeError when v is not a dict. -/
def pyGetD : JVal → String → JVal → Except String JVal
  | .obj fs, k, d => .ok ((fs.lookup k).getD d)
  | _, k, _ => .error ("AttributeError: object has no attribute get (key " ++ k ++ ")")

/-- Python v[k]: the value when v is a dict containing the key; raises
KeyError when the key is absent and TypeError when v is not a dict. -/
def pyIndex : JVal → String → Except String JVal
  | .obj fs, k =>
    match fs.lookup k with
    | some v => .ok v
    | none => .error ("KeyError: \x27" ++ k ++ "\x27")
  | _, k => .error ("TypeError: value is not subscriptable (key " ++ k ++ ")")

/-- A callback payload: a Python dict parsed from JSON, modelled as an
association list. -/
def Payload := List (String × JVal)

/-- payload.get(k) with no default: the value when present, None when
absent (a payload is always a dict, so no exception arises). -/
def pget (p : Payload) (k : String) : JVal :=
  (List.lookup k p).getD .null

/-- Environment-sourced gateway configuration: the MYFATOORAH_TOKEN
variable (none when unset). The base URL and callback URLs only feed
the outbound request body, which no claim inspects, so they are not
carried here. -/
structure MfConfig where
  token : Option String

/-- The outcome of the one outbound HTTP POST to the gateway, as seen
by the caller of requests.post: either some exception was raised by
the post or by resp.json() (network error, timeout, malformed JSON
body), carrying str(e), or a parsed response with a status code and a
JSON body. -/
inductive HttpOutcome where
  | exn (msg : String)
  | ok (status : Nat) (data : JVal)

/-- The dict returned by create_myfatoorah_invoice, with one field per
possible dict key. invoice_url holds the raw JSON value of
InvoiceURL (null both when the key is absent and when it is null,
matching dict.get); error is none exactly when the error key is
absent from the dict. -/
structure MfResult where
  configured : Bool
  invoice_id : Option String := none
  invoice_url : JVal := .null
  error : Option JVal := none
  details : Option JVal := none
deriving Repr

/-- The body of the try block around the response handling in
create_myfatoorah_invoice, lines 120-132 of main.py: evaluates
resp.status_code == 200 and data.get(IsSuccess) with Python
short-circuiting, then either extracts Data.InvoiceId / Data.InvoiceURL
or builds the failure dict from data.get(Message, default). An .error
result is an exception reaching the except clause. -/
def classifyResponse (status : Nat) (data : JVal) : Except String MfResult :=
  match (if status = 200 then (pyGet data "IsSuccess").map pyTruthy else .ok false) with
  | .error e => .error e
  | .ok cond =>
    if cond then
      match pyIndex data "Data" with
      | .error e => .error e
      | .ok d =>
        match pyIndex d "InvoiceId" with
        | .error e => .error e
        | .ok iid =>
          match pyGet d "InvoiceURL" with
          | .error e => .error e
          | .ok iurl => .ok { configured := true, invoice_id := some (pyStr iid), invoice_url := iurl }
    else
      match pyGetD data "Message" (.str "MyFatoorah request failed") with
      | .error e => .error e
      | .ok msg => .ok { configured := true, error := some msg, details := some data }

/-- create_myfatoorah_invoice, lines 80-134 of main.py. The order_id,
total and customer fields only feed the outbound request body, which
no claim inspects, so the body is not modelled. The second component
records whether the network call was attempted (requests.post
reached). When the token is unset or empty, get_myfatoorah_headers
raises HTTPException, caught here into the not-configured dict. -/
def create_myfatoorah_invoice (cfg : MfConfig) (order_id : Nat) (order_total : ℚ)
    (customer_name : String) (customer_email : Option String)
    (customer_mobile : Option String) (outcome : HttpOutcome) : MfResult × Bool :=
  match cfg.token with
  | none => ({ configured := false, error := some (.str "MyFatoorah token not configured") }, false)
  | some tok =>
    if tok = "" then
      ({ configured := false, error := some (.str "MyFatoorah token not configured") }, false)
    else
      match outcome with
      | .exn msg => ({ configured := true, error := some (.str msg) }, true)
      | .ok status data =>
        match classifyResponse status data with
        | .ok r => (r, true)
        | .error e => ({ configured := true, error := some (.str e) }, true)

/-- Modelled from the spec: schemas.OrderItem (schemas.py is imported
by main.py but absent from src/). A snapshot line item: product title,
unit price, quantity, currency. Prices are exact decimals, modelled as
rationals. -/
structure OrderItem where
  product_title : String
  unit_price : ℚ
  quantity : Nat
  currency : String
deriving Repr

/-- Modelled from the spec: schemas.Order (schemas.py absent from
src/), as persisted in the order collection together with its
store-assigned identifier. invoice_id, invoice_url and payment_id are
optional and absent on a freshly constructed order; the callback
handler stores invoice_id stringified, payment_id verbatim (any JSON
value), and checkout patches invoice_url with the raw payment_url
value. -/
structure OrderDoc where
  id : Nat
  customer_name : String
  customer_email : Option String
  customer_mobile : Option String
  items : List OrderItem
  total_amount : ℚ
  currency : String
  status : String
  invoice_id : Option String := none
  invoice_url : Option JVal := none
  payment_id : Option JVal := none
deriving Repr

/-- Modelled from the spec: the document store adapter (database.py
absent from src/; the db object is a Mongo-style database). The two
collections used by main.py are insertion-ordered lists; nextId is the
source of fresh opaque order identifiers handed out by create. Each
audit document inserted into order_callbacks wraps one raw payload. -/
structure Store where
  orders : List OrderDoc
  callbacks : List Payload
  nextId : Nat

/-- update_one with a $set patch: Mongo updates only the first
document matching the filter, and never inserts. -/
def updateFirst (l : List OrderDoc) (pr : OrderDoc → Bool) (f : OrderDoc → OrderDoc) : List OrderDoc :=
  match l with
  | [] => []
  | o :: os => if pr o then f o :: os else o :: updateFirst os pr f

/-- A Mongo filter value compared against the _id field: either an
order identifier, or (as produced by the double lookup in checkout) a
whole order document. -/
inductive IdFilter where
  | idv (n : Nat)
  | docv (d : OrderDoc)

/-- Whether a document matches the filter on _id. Mongo equality
between an identifier and a whole document is always false: no
document has itself as its _id. -/
def idMatches (o : OrderDoc) (f : IdFilter) : Bool :=
  match f with
  | .idv n => o.id = n
  | .docv _ => false

/-- The static PRODUCT catalog constant of main.py, restricted to the
fields the checkout flow reads. -/
structure Product where
  id : String
  title : String
  price : ℚ
  currency : String
  in_stock : Bool

/-- The PRODUCT dict of main.py, lines 22-43. -/
def PRODUCT : Product :=
  { id := "kalrem-b6"
    title := "Kalerm B6 Home Coffee Machine"
    price := 299
    currency := "KWD"
    in_stock := true }

/-- CheckoutRequest, lines 53-56 of main.py. -/
structure CheckoutReq where
  customer_name : String
  customer_email : Option String
  customer_mobile : Option String

/-- CheckoutResponse, lines 58-61 of main.py. payment_url is the raw
value taken from the gateway result (null when absent). -/
structure CheckoutResponse where
  order_id : Nat
  payment_url : JVal := .null
  message : String
deriving Repr

/-- The OrderItem and Order built by checkout, lines 143-157 of
main.py: one item at quantity 1 snapshotting the product, total equal
to unit_price times quantity, status pending, identifier assigned by
the store (create_document). -/
def mkOrderDoc (product : Product) (req : CheckoutReq) (id : Nat) : OrderDoc :=
  let item : OrderItem :=
    { product_title := product.title
      unit_price := product.price
      quantity := 1
      currency := product.currency }
  { id := id
    customer_name := req.customer_name
    customer_email := req.customer_email
    customer_mobile := req.customer_mobile
    items := [item]
    total_amount := item.unit_price * (item.quantity : ℚ)
    currency := product.currency
    status := "pending" }

/-- The invoice-details save of checkout, line 172 of main.py:
db.order.update_one with filter _id equal to
db.order.find_one(filter _id equal to db.order.find_one(empty)[_id]),
that is, the filter value is the WHOLE first document of the order
collection, not an identifier. The whole expression sits in a
try/except that ignores every exception, so an empty collection (where
None[_id] raises) leaves the orders unchanged. -/
def invoiceUrlPatch (orders : List OrderDoc) (url : JVal) : List OrderDoc :=
  match orders.head? with
  | none => orders
  | some first =>
    match orders.find? (fun o => o.id = first.id) with
    | none => orders
    | some fullDoc =>
      updateFirst orders (fun o => idMatches o (.docv fullDoc)) (fun o => { o with invoice_url := some url })

/-- checkout, lines 137-181 of main.py. Besides the request it takes
the store state, the gateway configuration, the outcome of the one
outbound gateway call, and patchOk, which is false when the advisory
invoice-details save raises a store exception (caught by the
try/except around it, leaving the store unchanged). Returns the HTTP
result (error status and detail, or a CheckoutResponse), the new store
state, and whether the gateway network call was attempted. -/
def checkout (product : Product) (req : CheckoutReq) (s : Store) (cfg : MfConfig)
    (outcome : HttpOutcome) (patchOk : Bool) :
    Except (Nat × String) CheckoutResponse × Store × Bool :=
  if !product.in_stock then
    (.error (400, "Product out of stock"), s, false)
  else
    let order := mkOrderDoc product req s.nextId
    let order_id := s.nextId
    let s1 : Store := { s with orders := s.orders ++ [order], nextId := s.nextId + 1 }
    let mfc := create_myfatoorah_invoice cfg order_id order.total_amount
      req.customer_name req.customer_email req.customer_mobile outcome
    let mf := mfc.1
    if mf.configured && pyTruthy mf.invoice_url then
      let s2 := if patchOk then { s1 with orders := invoiceUrlPatch s1.orders mf.invoice_url } else s1
      (.ok { order_id := order_id, payment_url := mf.invoice_url, message := "Proceed to payment" }, s2, mfc.2)
    else if !mf.configured then
      (.ok { order_id := order_id, message := "Payment gateway not configured. Contact support." }, s1, mfc.2)
    else
      (.ok { order_id := order_id,
             message := "Payment creation failed: " ++ pyStr ((mf.error).getD (.str "Unknown error")) }, s1, mfc.2)

/-- The partial $set patch assembled by payment_callback, lines
194-200 of main.py: each field is present exactly when the code adds
the corresponding key to the update dict. -/
structure CbUpdate where
  payment_id : Option JVal := none
  invoice_id : Option String := none
  status : Option String := none
deriving Repr

/-- Whether the update dict is empty (Python falsiness of the dict). -/
def CbUpdate.isEmpty (u : CbUpdate) : Bool :=
  u.payment_id.isNone && u.invoice_id.isNone && u.status.isNone

/-- Applying the $set patch to one order document: each present field
overwrites the stored one, absent fields are untouched. -/
def applyUpdate (u : CbUpdate) (o : OrderDoc) : OrderDoc :=
  { o with
    payment_id := match u.payment_id with | some v => some v | none => o.payment_id
    invoice_id := match u.invoice_id with | some v => some v | none => o.invoice_id
    status := match u.status with | some v => v | none => o.status }

/-- Line 190 of main.py: str(payload.get(InvoiceId)) when that get is
not None, else None. -/
def cbInvoiceId (p : Payload) : Option String :=
  if (pget p "InvoiceId").isNull then none else some (pyStr (pget p "InvoiceId"))

/-- Line 192 of main.py: payload.get(TransactionStatus) or
payload.get(InvoiceStatus) — the first operand when truthy, else the
second operand verbatim. -/
def cbStatusVal (p : Payload) : JVal :=
  if pyTruthy (pget p "TransactionStatus") then pget p "TransactionStatus" else pget p "InvoiceStatus"

/-- Lines 190-200 of main.py: the update dict. payment_id is added
when payload.get(PaymentId) is truthy, invoice_id when the stringified
value is a non-empty string, status (stringified and lower-cased) when
the extracted status value is truthy. -/
def cbUpdate (p : Payload) : CbUpdate :=
  { payment_id := if pyTruthy (pget p "PaymentId") then some (pget p "PaymentId") else none
    invoice_id :=
      match cbInvoiceId p with
      | some s => if s = "" then none else some s
      | none => none
    status := if pyTruthy (cbStatusVal p) then some (pyLower (pyStr (cbStatusVal p))) else none }

/-- The body returned by the callback endpoint. -/
structure CbResponse where
  ok : Bool
  error : Option String := none
deriving Repr, DecidableEq

/-- payment_callback, lines 184-210 of main.py. When the update dict
is non-empty: if invoice_id is truthy, update_one patches the first
order whose invoice_id equals it, and the raw payload is inserted into
order_callbacks; when the update dict is empty nothing is written. The
handler answers ok in every case (no modelled step raises). -/
def payment_callback (s : Store) (p : Payload) : Store × CbResponse :=
  let u := cbUpdate p
  if u.isEmpty then
    (s, { ok := true })
  else
    let orders2 :=
      match u.invoice_id with
      | some iid => updateFirst s.orders (fun o => decide (o.invoice_id = some iid)) (applyUpdate u)
      | none => s.orders
    ({ s with orders := orders2, callbacks := s.callbacks ++ [p] }, { ok := true })

/-- Whether a gateway-client result dict is the Succeeded variant:
configured and carrying an invoice_id. -/
def MfResult.succeeded (r : MfResult) : Bool :=
  r.configured && r.invoice_id.isSome

/-- Whether a gateway-client result dict is the Failed variant:
configured, no invoice_id, and the error key present. -/
def MfResult.failed (r : MfResult) : Bool :=
  r.configured && r.invoice_id.isNone && r.error.isSome

/-- Whether a gateway-client result dict is the NotConfigured
variant. -/
def MfResult.notConfigured (r : MfResult) : Bool :=
  !r.configured

/-- The gateway-client result as a function of configuration and call
outcome alone: create_myfatoorah_invoice never reads the order or
customer arguments except to build the outbound request body, so its
result is the same for any of them. -/
def mfResultOf (cfg : MfConfig) (outcome : HttpOutcome) : MfResult :=
  (create_myfatoorah_invoice cfg 0 0 "" none none outcome).1

/-- Spec-side success condition, as the amended claim words it: the
gateway call returned (no exception), with HTTP status 200, a truthy
IsSuccess flag, and a body whose Data member is an object containing
an InvoiceId. Written over the shape of the JSON tree, to be compared
with the code path through classifyResponse. -/
def gatewaySuccess : HttpOutcome → Bool
  | .exn _ => false
  | .ok status data =>
    match data with
    | .obj fs =>
      decide (status = 200) && pyTruthy ((fs.lookup "IsSuccess").getD .null) &&
      (match (fs.lookup "Data").getD .null with
       | .obj ds => (ds.lookup "InvoiceId").isSome
       | _ => false)
    | _ => false

/-- Spec-side callback field extraction, as the amended claim words
it: InvoiceId is stringified when present and non-null and contributes
when the result is a non-empty string; PaymentId contributes verbatim
when present and truthy; the status source is TransactionStatus when
that is truthy, otherwise InvoiceStatus, and contributes its
stringified lower-cased text when truthy. -/
def specUpdate (p : Payload) : CbUpdate :=
  { payment_id :=
      match List.lookup "PaymentId" p with
      | some v => if pyTruthy v then some v else none
      | none => none
    invoice_id :=
      match List.lookup "InvoiceId" p with
      | some v =>
        if v.isNull then none
        else if pyStr v = "" then none else some (pyStr v)
      | none => none
    status :=
      match (match List.lookup "TransactionStatus" p with
             | some t => if pyTruthy t then some t else none
             | none => none) with
      | some t => some (pyLower (pyStr t))
      | none =>
        match List.lookup "InvoiceStatus" p with
        | some v => if pyTruthy v then some (pyLower (pyStr v)) else none
        | none => none }

/-- Sum of unit_price times quantity over the line items of an order. -/
def itemsTotal (items : List OrderItem) : ℚ :=
  (items.map (fun it => it.unit_price * (it.quantity : ℚ))).sum

/-- A concrete checkout request used by witnesses. -/
def req0 : CheckoutReq :=
  { customer_name := "Alice", customer_email := none, customer_mobile := none }

/-- An empty store used by witnesses. -/
def store0 : Store :=
  { orders := [], callbacks := [], nextId := 0 }

/-- A configuration with a bearer token present. -/
def cfgTok : MfConfig :=
  { token := some "tok" }

/-- A configuration with the bearer token unset. -/
def cfgNone : MfConfig :=
  { token := none }

/-- A gateway call outcome: 200, success flag, invoice id and URL. -/
def outSucc : HttpOutcome :=
  .ok 200 (.obj [("IsSuccess", .bool true),
                 ("Data", .obj [("InvoiceId", .num 7), ("InvoiceURL", .str "https://pay.example/7")])])

/-- A gateway call outcome: 200 and success flag, but Data carries no
InvoiceURL key. -/
def outNoUrl : HttpOutcome :=
  .ok 200 (.obj [("IsSuccess", .bool true), ("Data", .obj [("InvoiceId", .num 7)])])

/-- A gateway call outcome: 200 and success flag, with an empty-string
InvoiceURL. -/
def outUrlEmpty : HttpOutcome :=
  .ok 200 (.obj [("IsSuccess", .bool true),
                 ("Data", .obj [("InvoiceId", .num 7), ("InvoiceURL", .str "")])])

/-- A gateway call outcome: 200 and success flag, but no Data member
at all. -/
def outNoData : HttpOutcome :=
  .ok 200 (.obj [("IsSuccess", .bool true)])

/-- A gateway call outcome: a 400 rejection whose body carries an
empty Message. -/
def outEmptyMsg : HttpOutcome :=
  .ok 400 (.obj [("Message", .str "")])

/-- A persisted order already carrying invoice_id X, as left by an
earlier checkout and callback. -/
def ordX : OrderDoc :=
  { id := 3, customer_name := "A", customer_email := none, customer_mobile := none,
    items := [], total_amount := 0, currency := "KWD", status := "pending",
    invoice_id := some "X" }

/-- A store holding just ordX. -/
def storeX : Store :=
  { orders := [ordX], callbacks := [], nextId := 4 }

/-- A callback payload whose PaymentId is present but an empty
string. -/
def pMt : Payload :=
  [("InvoiceId", .str "X"), ("PaymentId", .str "")]

/-- A callback payload reporting a Paid transaction for invoice X. -/
def pPaid : Payload :=
  [("InvoiceId", .str "X"), ("TransactionStatus", .str "Paid")]

/-- A callback payload carrying none of the recognized fields. -/
def pNone : Payload :=
  [("Foo", .num 1)]

/-- The PRODUCT constant with the stock flag turned off. -/
def productOOS : Product :=
  { PRODUCT with in_stock := false }

/-- Updating with a predicate that holds nowhere changes nothing. -/
lemma updateFirst_of_false (l : List OrderDoc) (pr : OrderDoc → Bool) (f : OrderDoc → OrderDoc)
    (h : ∀ o, pr o = false) : updateFirst l pr f = l := by
  induction l with
  | nil => rfl
  | cons o os ih => simp [updateFirst, h o, ih]

/-- updateFirst never inserts or deletes documents. -/
lemma updateFirst_length (l : List OrderDoc) (pr : OrderDoc → Bool) (f : OrderDoc → OrderDoc) :
    (updateFirst l pr f).length = l.length := by
  induction l with
  | nil => rfl
  | cons o os ih => cases h : pr o <;> simp [updateFirst, h, ih]

/-- Applying the same first-match update twice is the same as applying
it once, when the update is idempotent on a document and keeps a
matching document matching. -/
lemma updateFirst_twice (l : List OrderDoc) (pr : OrderDoc → Bool) (f : OrderDoc → OrderDoc)
    (hpres : ∀ o, pr o = true → pr (f o) = true) (hid : ∀ o, f (f o) = f o) :
    updateFirst (updateFirst l pr f) pr f = updateFirst l pr f := by
  induction l with
  | nil => rfl
  | cons o os ih =>
    cases h : pr o with
    | true => simp [updateFirst, h, hpres o h, hid o]
    | false => simp [updateFirst, h, ih]

/-- The invoice-details save of checkout never modifies any document:
its filter compares the _id field with a whole document, which matches
nothing, and the empty-collection path raises and is swallowed. -/
lemma invoiceUrlPatch_eq_self (orders : List OrderDoc) (url : JVal) :
    invoiceUrlPatch orders url = orders := by
  unfold invoiceUrlPatch
  cases hh : orders.head? with
  | none => rfl
  | some first =>
    cases hf : orders.find? (fun o => o.id = first.id) with
    | none => simp only [hf]
    | some d =>
      simp only [hf]
      exact updateFirst_of_false orders (fun o => idMatches o (.docv d)) _ (fun o => rfl)

/-- A $set patch with fixed values is idempotent on a document. -/
lemma applyUpdate_idem (u : CbUpdate) (o : OrderDoc) :
    applyUpdate u (applyUpdate u o) = applyUpdate u o := by
  cases u with
  | mk pid iid st => cases pid <;> cases iid <;> cases st <;> simp [applyUpdate]

/-- The gateway-client result is the same whatever order and customer
data feed the request body. -/
lemma create_fst_eq (cfg : MfConfig) (a : Nat) (b : ℚ) (c : String) (d e : Option String)
    (outcome : HttpOutcome) :
    (create_myfatoorah_invoice cfg a b c d e outcome).1 = mfResultOf cfg outcome := rfl

/-- Every dict built by the response classifier is configured, and
when it carries no invoice_id its invoice_url is null and its error
key is present. -/
lemma classifyResponse_ok_inv (status : Nat) (data : JVal) (r : MfResult)
    (h : classifyResponse status data = .ok r) :
    r.configured = true ∧ (r.invoice_id = none → (r.invoice_url = .null ∧ r.error.isSome = true)) := by
  unfold classifyResponse at h
  split at h
  · cases h
  · split at h
    · split at h
      · cases h
      · split at h
        · cases h
        · split at h
          · cases h
          · cases h; simp
    · split at h
      · cases h
      · cases h; simp

/-- The response classifier lands in the Succeeded shape exactly when
the spec-side success condition holds of the call outcome, and any
dict it builds otherwise is in the Failed shape. -/
lemma classify_vs_spec (status : Nat) (data : JVal) :
    ((match classifyResponse status data with
      | .ok r => r.succeeded
      | .error _ => false) = gatewaySuccess (.ok status data)) ∧
    (match classifyResponse status data with
     | .ok r => r.succeeded = false → r.failed = true
     | .error _ => True) := by
  by_cases hst : status = 200
  · cases data with
    | obj fs =>
      cases htr : pyTruthy ((fs.lookup "IsSuccess").getD .null) with
      | false => simp [classifyResponse, gatewaySuccess, Except.map, pyGet, pyGetD, hst, htr, MfResult.succeeded, MfResult.failed]
      | true =>
        cases hD : fs.lookup "Data" with
        | none => simp [classifyResponse, gatewaySuccess, Except.map, pyGet, pyIndex, pyGetD, hst, htr, hD, MfResult.succeeded, MfResult.failed]
        | some v =>
          cases v with
          | obj ds =>
            cases hI : ds.lookup "InvoiceId" with
            | none => simp [classifyResponse, gatewaySuccess, Except.map, pyGet, pyIndex, pyGetD, hst, htr, hD, hI, MfResult.succeeded, MfResult.failed]
            | some iid => simp [classifyResponse, gatewaySuccess, Except.map, pyGet, pyIndex, pyGetD, hst, htr, hD, hI, MfResult.succeeded, MfResult.failed]
          | null => simp [classifyResponse, gatewaySuccess, Except.map, pyGet, pyIndex, pyGetD, hst, htr, hD, MfResult.succeeded, MfResult.failed]
          | bool b => simp [classifyResponse, gatewaySuccess, Except.map, pyGet, pyIndex, pyGetD, hst, htr, hD, MfResult.succeeded, MfResult.failed]
          | num n => simp [classifyResponse, gatewaySuccess, Except.map, pyGet, pyIndex, pyGetD, hst, htr, hD, MfResult.succeeded, MfResult.failed]
          | str s => simp [classifyResponse, gatewaySuccess, Except.map, pyGet, pyIndex, pyGetD, hst, htr, hD, MfResult.succeeded, MfResult.failed]
          | arr xs => simp [classifyResponse, gatewaySuccess, Except.map, pyGet, pyIndex, pyGetD, hst, htr, hD, MfResult.succeeded, MfResult.failed]
    | null => simp [classifyResponse, gatewaySuccess, Except.map, pyGet, pyGetD, hst, MfResult.succeeded, MfResult.failed]
    | bool b => simp [classifyResponse, gatewaySuccess, Except.map, pyGet, pyGetD, hst, MfResult.succeeded, MfResult.failed]
    | num n => simp [classifyResponse, gatewaySuccess, Except.map, pyGet, pyGetD, hst, MfResult.succeeded, MfResult.failed]
    | str s => simp [classifyResponse, gatewaySuccess, Except.map, pyGet, pyGetD, hst, MfResult.succeeded, MfResult.failed]
    | arr xs => simp [classifyResponse, gatewaySuccess, Except.map, pyGet, pyGetD, hst, MfResult.succeeded, MfResult.failed]
  · cases data <;> simp [classifyResponse, gatewaySuccess, Except.map, pyGet, pyGetD, hst, MfResult.succeeded, MfResult.failed]

/-- A gateway-client result without an invoice_id carries a null
invoice_url. -/
lemma mfResultOf_invoice_url_null (cfg : MfConfig) (outcome : HttpOutcome)
    (h : (mfResultOf cfg outcome).invoice_id = none) :
    (mfResultOf cfg outcome).invoice_url = .null := by
  revert h
  unfold mfResultOf create_myfatoorah_invoice
  cases htk : cfg.token with
  | none => intro h; rfl
  | some tok =>
    by_cases he : tok = ""
    · simp [he]
    · simp only [he, if_false]
      cases outcome with
      | exn msg => intro h; rfl
      | ok status data =>
        cases hp : classifyResponse status data with
        | ok r =>
          simp only [hp]
          intro h
          exact ((classifyResponse_ok_inv status data r hp).2 h).1
        | error e => simp only [hp]; intro h; trivial

/-- An empty update dict contains no invoice_id. -/
lemma isEmpty_invoice_none (u : CbUpdate) (h : u.isEmpty = true) : u.invoice_id = none := by
  simp only [CbUpdate.isEmpty, Bool.and_eq_true, Option.isNone_iff_eq_none] at h
  exact h.1.2

/-- C1 counterexample: a payload carrying none of the recognized
fields is acknowledged with ok true but leaves the order_callbacks
collection empty, contradicting the claim that every payload produces
an audit record. -/
theorem C1_counterexample :
    (payment_callback store0 pNone).1.callbacks = [] ∧
    (payment_callback store0 pNone).2.ok = true := ⟨rfl, rfl⟩

/-- C1 (amended): handle_callback always answers ok true, and it
appends the raw payload to order_callbacks exactly when the extracted
update dict is non-empty — independently of whether any order matched;
a payload with no recognized field produces no audit record. -/
theorem C1_audit_iff_update (s : Store) (p : Payload) :
    (payment_callback s p).2.ok = true ∧
    (payment_callback s p).1.callbacks =
      (if (cbUpdate p).isEmpty then s.callbacks else s.callbacks ++ [p]) := by
  cases h : (cbUpdate p).isEmpty <;> simp [payment_callback, h]

/-- C2: with a configured token, an empty store and a gateway call
that returns a truthy invoice URL, the persisted order still has no
invoice_url after checkout: the update filter compares the _id field
with a whole document and therefore matches nothing, so the advisory
patch never reaches the order created under the returned order_id. -/
theorem C2_patch_misses_created_order :
    pyTruthy (mfResultOf cfgTok outSucc).invoice_url = true ∧
    ((checkout PRODUCT req0 store0 cfgTok outSucc true).2.1.orders.map (fun o => o.invoice_url)) = [none] :=
  ⟨rfl, rfl⟩

/-- C3 counterexample: two gateway outcomes whose result is Succeeded
(configured, with an invoice_id) — one with no InvoiceURL key and one
with an empty-string InvoiceURL — make checkout answer with no
payment_url and the message Payment creation failed: Unknown error,
not Proceed to payment. -/
theorem C3_counterexample :
    ((mfResultOf cfgTok outNoUrl).succeeded = true ∧
      (checkout PRODUCT req0 store0 cfgTok outNoUrl true).1 =
        .ok { order_id := 0, payment_url := .null, message := "Payment creation failed: Unknown error" }) ∧
    ((mfResultOf cfgTok outUrlEmpty).succeeded = true ∧
      (checkout PRODUCT req0 store0 cfgTok outUrlEmpty true).1 =
        .ok { order_id := 0, payment_url := .null, message := "Payment creation failed: Unknown error" }) :=
  ⟨⟨rfl, rfl⟩, ⟨rfl, rfl⟩⟩

/-- C3 (amended): for every checkout where the gateway result is
configured and carries a truthy (present, non-empty) invoice URL, the
response carries that URL as payment_url and the message is exactly
Proceed to payment, for either value of the advisory-patch outcome
patchOk. -/
theorem C3_succeeded_with_url (product : Product) (req : CheckoutReq) (s : Store)
    (cfg : MfConfig) (outcome : HttpOutcome) (patchOk : Bool)
    (hstock : product.in_stock = true)
    (hconf : (mfResultOf cfg outcome).configured = true)
    (hurl : pyTruthy (mfResultOf cfg outcome).invoice_url = true) :
    (checkout product req s cfg outcome patchOk).1 =
      .ok { order_id := s.nextId, payment_url := (mfResultOf cfg outcome).invoice_url,
            message := "Proceed to payment" } := by
  simp [checkout, hstock, create_fst_eq, hconf, hurl]

/-- Witness for C3 at a concrete successful gateway outcome. -/
theorem C3_witness :
    PRODUCT.in_stock = true ∧
    (mfResultOf cfgTok outSucc).configured = true ∧
    pyTruthy (mfResultOf cfgTok outSucc).invoice_url = true ∧
    (checkout PRODUCT req0 store0 cfgTok outSucc true).1 =
      .ok { order_id := store0.nextId, payment_url := (mfResultOf cfgTok outSucc).invoice_url,
            message := "Proceed to payment" } :=
  ⟨rfl, rfl, rfl, C3_succeeded_with_url PRODUCT req0 store0 cfgTok outSucc true rfl rfl rfl⟩

/-- C4 counterexample: a 200 response with IsSuccess true but no Data
member yields Failed, refuting Succeeded-iff-success-status-and-flag;
and a 400 response whose body carries an empty Message yields Failed
with an empty reason, refuting the non-empty-reason clause. -/
theorem C4_counterexample :
    ((mfResultOf cfgTok outNoData).succeeded = false ∧
      (mfResultOf cfgTok outNoData).error.isSome = true) ∧
    (mfResultOf cfgTok outEmptyMsg).error = some (JVal.str "") :=
  ⟨⟨rfl, rfl⟩, rfl⟩

/-- C4 (amended): with a configured token, the gateway client returns
Succeeded if and only if the call outcome is a 200 response with a
truthy IsSuccess flag and a body whose Data member is an object
containing an InvoiceId; in every other case it returns Failed with
the error key present, and no exception propagates (the client is a
total function into result dicts). -/
theorem C4_classification (tok : String) (htok : tok ≠ "") (outcome : HttpOutcome) :
    ((mfResultOf { token := some tok } outcome).succeeded = gatewaySuccess outcome) ∧
    (gatewaySuccess outcome = false →
      (mfResultOf { token := some tok } outcome).failed = true) := by
  cases outcome with
  | exn msg =>
    simp [mfResultOf, create_myfatoorah_invoice, htok, gatewaySuccess, MfResult.succeeded, MfResult.failed]
  | ok status data =>
    have hcv := classify_vs_spec status data
    have hmf : mfResultOf { token := some tok } (.ok status data) =
        (match classifyResponse status data with
         | .ok r => r
         | .error e => { configured := true, error := some (.str e) }) := by
      simp only [mfResultOf, create_myfatoorah_invoice, htok, if_false]
      cases hp : classifyResponse status data <;> simp [hp]
    rw [hmf]
    cases hp : classifyResponse status data with
    | ok r =>
      simp only [hp] at hcv ⊢
      exact ⟨hcv.1, fun hg => hcv.2 (by rw [hcv.1]; exact hg)⟩
    | error e =>
      simp only [hp] at hcv ⊢
      refine ⟨?_, fun hg => ?_⟩
      · simp only [MfResult.succeeded]
        simp only [← hcv.1]
        rfl
      · rfl

/-- Witness for C4 at a concrete token and successful outcome. -/
theorem C4_witness :
    ("tok" : String) ≠ "" ∧
    ((mfResultOf { token := some "tok" } outSucc).succeeded = gatewaySuccess outSucc) ∧
    (gatewaySuccess outSucc = false → (mfResultOf { token := some "tok" } outSucc).failed = true) :=
  ⟨by decide, C4_classification "tok" (by decide) outSucc⟩

/-- C5 counterexample: a payload whose PaymentId key is present (with
an empty-string value) against a store holding the matching order:
the callback patches invoice_id but not payment_id, so the patch does
not contain exactly the present fields. -/
theorem C5_counterexample :
    (List.lookup "PaymentId" pMt).isSome = true ∧
    ((payment_callback storeX pMt).1.orders.map (fun o => o.payment_id)) = [none] ∧
    ((payment_callback storeX pMt).1.orders.map (fun o => o.invoice_id)) = [some "X"] :=
  ⟨rfl, rfl, rfl⟩

/-- C5 (amended): the update dict equals the spec-side extraction —
fields are included exactly when their extracted values are truthy,
with InvoiceId stringified and status lower-cased from
TransactionStatus or, when that is falsy, InvoiceStatus; the patch is
applied to the first order whose invoice_id equals the extracted
InvoiceId only when that value is truthy, no match is attempted
otherwise, and no order is ever created or deleted. -/
theorem C5_extraction_and_patch (s : Store) (p : Payload) :
    cbUpdate p = specUpdate p ∧
    ((payment_callback s p).1.orders =
      match (cbUpdate p).invoice_id with
      | some iid => updateFirst s.orders (fun o => decide (o.invoice_id = some iid)) (applyUpdate (cbUpdate p))
      | none => s.orders) ∧
    (payment_callback s p).1.orders.length = s.orders.length := by
  refine ⟨?_, ?_, ?_⟩
  · simp only [cbUpdate, specUpdate, cbInvoiceId, cbStatusVal, pget, CbUpdate.mk.injEq]
    refine ⟨?_, ?_, ?_⟩
    · cases hP : List.lookup "PaymentId" p <;> simp [hP, pyTruthy]
    · cases hI : List.lookup "InvoiceId" p
      · simp [hI, JVal.isNull]
      · rename_i v
        cases hvn : v.isNull <;> simp [hI, hvn]
    · have hnull : pyTruthy JVal.null = false := rfl
      cases hT : List.lookup "TransactionStatus" p
      · cases hIS : List.lookup "InvoiceStatus" p <;> simp [hT, hIS, hnull]
      · rename_i t
        cases htt : pyTruthy t
        · cases hIS : List.lookup "InvoiceStatus" p <;> simp [hT, hIS, htt, hnull]
        · simp [hT, htt]
  · cases h : (cbUpdate p).isEmpty
    · cases hi : (cbUpdate p).invoice_id <;> simp [payment_callback, h, hi]
    · have hnone := isEmpty_invoice_none _ h
      simp [payment_callback, h, hnone]
  · cases h : (cbUpdate p).isEmpty
    · cases hi : (cbUpdate p).invoice_id <;>
        simp [payment_callback, h, hi, updateFirst_length]
    · simp [payment_callback, h]

/-- C6: with the bearer token absent, the gateway client reports
NotConfigured without attempting the network call, and checkout
answers with no payment_url and the exact support message. -/
theorem C6_gateway_not_configured (product : Product) (req : CheckoutReq) (s : Store)
    (outcome : HttpOutcome) (patchOk : Bool) (oid : Nat) (tot : ℚ) (nm : String)
    (em mo : Option String) (hstock : product.in_stock = true) :
    (create_myfatoorah_invoice { token := none } oid tot nm em mo outcome).1.notConfigured = true ∧
    (create_myfatoorah_invoice { token := none } oid tot nm em mo outcome).2 = false ∧
    (checkout product req s { token := none } outcome patchOk).1 =
      .ok { order_id := s.nextId, payment_url := .null,
            message := "Payment gateway not configured. Contact support." } := by
  refine ⟨rfl, rfl, ?_⟩
  simp [checkout, hstock, create_fst_eq, mfResultOf, create_myfatoorah_invoice, pyTruthy]

/-- Witness for C6 at concrete inputs. -/
theorem C6_witness :
    PRODUCT.in_stock = true ∧
    ((create_myfatoorah_invoice cfgNone 0 299 "Alice" none none outSucc).1.notConfigured = true ∧
     (create_myfatoorah_invoice cfgNone 0 299 "Alice" none none outSucc).2 = false ∧
     (checkout PRODUCT req0 store0 cfgNone outSucc true).1 =
       .ok { order_id := store0.nextId, payment_url := .null,
             message := "Payment gateway not configured. Contact support." }) :=
  ⟨rfl, C6_gateway_not_configured PRODUCT req0 store0 outSucc true 0 299 "Alice" none none rfl⟩

/-- C7: when the product stock flag is false, checkout is rejected
with the 400 out-of-stock error, the store is returned unchanged (no
order persisted, no collection written), and no gateway call is
attempted. -/
theorem C7_out_of_stock_rejected (product : Product) (req : CheckoutReq) (s : Store)
    (cfg : MfConfig) (outcome : HttpOutcome) (patchOk : Bool)
    (h : product.in_stock = false) :
    checkout product req s cfg outcome patchOk = (.error (400, "Product out of stock"), s, false) := by
  simp [checkout, h]

/-- Witness for C7 at the catalog product with the stock flag off. -/
theorem C7_witness :
    productOOS.in_stock = false ∧
    checkout productOOS req0 store0 cfgTok outSucc true =
      (.error (400, "Product out of stock"), store0, false) :=
  ⟨rfl, C7_out_of_stock_rejected productOOS req0 store0 cfgTok outSucc true rfl⟩

/-- C8: every order persisted by checkout has status pending, total
amount equal to the sum of unit_price times quantity over its items
(which equals price times 1), and a currency equal to the product
currency and to every item currency. -/
theorem C8_order_invariants (product : Product) (req : CheckoutReq) (s : Store)
    (cfg : MfConfig) (outcome : HttpOutcome) (patchOk : Bool)
    (hstock : product.in_stock = true) :
    ∃ o : OrderDoc,
      (checkout product req s cfg outcome patchOk).2.1.orders = s.orders ++ [o] ∧
      o.status = "pending" ∧
      o.total_amount = itemsTotal o.items ∧
      o.total_amount = product.price * 1 ∧
      o.currency = product.currency ∧
      ∀ it ∈ o.items, it.currency = o.currency := by
  refine ⟨mkOrderDoc product req s.nextId, ?_, rfl, ?_, ?_, rfl, ?_⟩
  · by_cases hc : ((mfResultOf cfg outcome).configured && pyTruthy (mfResultOf cfg outcome).invoice_url) = true
    · cases patchOk <;> simp [checkout, hstock, create_fst_eq, hc, invoiceUrlPatch_eq_self]
    · simp [checkout, hstock, create_fst_eq, hc]
      split <;> rfl
  · simp [mkOrderDoc, itemsTotal]
  · simp [mkOrderDoc]
  · intro it hit
    simp only [mkOrderDoc, List.mem_singleton] at hit
    subst hit
    rfl

/-- Witness for C8 at concrete inputs. -/
theorem C8_witness :
    PRODUCT.in_stock = true ∧
    ∃ o : OrderDoc,
      (checkout PRODUCT req0 store0 cfgTok outSucc true).2.1.orders = store0.orders ++ [o] ∧
      o.status = "pending" ∧
      o.total_amount = itemsTotal o.items ∧
      o.total_amount = PRODUCT.price * 1 ∧
      o.currency = PRODUCT.currency ∧
      ∀ it ∈ o.items, it.currency = o.currency :=
  ⟨rfl, C8_order_invariants PRODUCT req0 store0 cfgTok outSucc true rfl⟩

/-- C9: delivering the same callback payload twice, when it carries a
truthy InvoiceId matching some stored order, leaves the orders exactly
as after the first delivery (each field set to the same value again)
while appending one audit record per delivery, two in total. -/
theorem C9_replay_idempotent (s : Store) (p : Payload) (iid : String)
    (hInv : (cbUpdate p).invoice_id = some iid)
    (hMatch : ∃ o ∈ s.orders, o.invoice_id = some iid) :
    ((payment_callback (payment_callback s p).1 p).1.orders = (payment_callback s p).1.orders) ∧
    ((payment_callback (payment_callback s p).1 p).1.callbacks = s.callbacks ++ [p, p]) := by
  have hne : (cbUpdate p).isEmpty = false := by
    simp [CbUpdate.isEmpty, hInv]
  constructor
  · simp only [payment_callback, hne, hInv]
    simp only [Bool.false_eq_true, if_false]
    exact updateFirst_twice _ _ _
      (fun o ho => by simp [applyUpdate, hInv])
      (applyUpdate_idem _)
  · simp [payment_callback, hne, hInv]

/-- Witness for C9: replaying a Paid callback for invoice X against a
store holding the matching order. -/
theorem C9_witness :
    (cbUpdate pPaid).invoice_id = some "X" ∧
    (∃ o ∈ storeX.orders, o.invoice_id = some "X") ∧
    (((payment_callback (payment_callback storeX pPaid).1 pPaid).1.orders =
        (payment_callback storeX pPaid).1.orders) ∧
     ((payment_callback (payment_callback storeX pPaid).1 pPaid).1.callbacks =
        storeX.callbacks ++ [pPaid, pPaid])) :=
  ⟨rfl, ⟨ordX, by simp [storeX], rfl⟩,
    C9_replay_idempotent storeX pPaid "X" rfl ⟨ordX, by simp [storeX], rfl⟩⟩

/-- C10: when the gateway result is NotConfigured or Failed, the only
store write checkout performs is the initial creation: the new store
is the old one with exactly the freshly built order appended (status
pending, no invoice_url, no invoice_id, no payment_id) and the
callbacks collection untouched. -/
theorem C10_failure_frame (product : Product) (req : CheckoutReq) (s : Store)
    (cfg : MfConfig) (outcome : HttpOutcome) (patchOk : Bool)
    (hstock : product.in_stock = true)
    (h : (mfResultOf cfg outcome).notConfigured = true ∨ (mfResultOf cfg outcome).failed = true) :
    (checkout product req s cfg outcome patchOk).2.1 =
      { orders := s.orders ++ [mkOrderDoc product req s.nextId],
        callbacks := s.callbacks,
        nextId := s.nextId + 1 } ∧
    (mkOrderDoc product req s.nextId).status = "pending" ∧
    (mkOrderDoc product req s.nextId).invoice_url = none ∧
    (mkOrderDoc product req s.nextId).invoice_id = none ∧
    (mkOrderDoc product req s.nextId).payment_id = none := by
  have hcond : ((mfResultOf cfg outcome).configured && pyTruthy (mfResultOf cfg outcome).invoice_url) = false := by
    rcases h with h | h
    · have hc : (mfResultOf cfg outcome).configured = false := by
        simpa [MfResult.notConfigured] using h
      simp [hc]
    · have hiid : (mfResultOf cfg outcome).invoice_id = none := by
        simp only [MfResult.failed, Bool.and_eq_true, Option.isNone_iff_eq_none] at h
        exact h.1.2
      simp [mfResultOf_invoice_url_null cfg outcome hiid, pyTruthy]
  refine ⟨?_, rfl, rfl, rfl, rfl⟩
  simp [checkout, hstock, create_fst_eq, hcond]
  split <;> rfl

/-- Witness for C10 at the not-configured gateway. -/
theorem C10_witness :
    PRODUCT.in_stock = true ∧
    ((mfResultOf cfgNone outSucc).notConfigured = true ∨ (mfResultOf cfgNone outSucc).failed = true) ∧
    ((checkout PRODUCT req0 store0 cfgNone outSucc true).2.1 =
      { orders := store0.orders ++ [mkOrderDoc PRODUCT req0 store0.nextId],
        callbacks := store0.callbacks,
        nextId := store0.nextId + 1 } ∧
     (mkOrderDoc PRODUCT req0 store0.nextId).status = "pending" ∧
     (mkOrderDoc PRODUCT req0 store0.nextId).invoice_url = none ∧
     (mkOrderDoc PRODUCT req0 store0.nextId).invoice_id = none ∧
     (mkOrderDoc PRODUCT req0 store0.nextId).payment_id = none) :=
  ⟨rfl, Or.inl rfl,
    C10_failure_frame PRODUCT req0 store0 cfgNone outSucc true rfl (Or.inl rfl)⟩
